import Mathlib

/-!
# Verification of the x402-stacks payment library

A shallow embedding of the x402-stacks TypeScript library (client-side
payment negotiator, transaction signer, facilitator client, server-side
payment gate, rate limiter and the header codecs), together with proofs
of the behavioural claims made by the specification.

JavaScript values that travel through `JSON.parse` / `JSON.stringify`
are modelled by the inductive `Json` below (numeric literals are
modelled as integers; the protocol itself only uses integer and string
fields).  JavaScript exceptions are modelled with `Option` / `Except`;
a caught exception corresponds to the `none` / `.error` branch.
-/

namespace X402

/-- Model of a JavaScript JSON value (`JSON.parse` output).  Numbers are
modelled as integers: every numeric literal appearing in the x402
protocol (`x402Version`, block heights, ...) is integral. -/
inductive Json where
  | null : Json
  | bool (b : Bool) : Json
  | num (n : Int) : Json
  | str (s : String) : Json
  | arr (xs : List Json) : Json
  | obj (fields : List (String × Json)) : Json
deriving Repr

/-- JavaScript truthiness of a JSON value (`!v` in the source). -/
def Json.truthy : Json → Bool
  | .null => false
  | .bool b => b
  | .num n => n != 0
  | .str s => s != ""
  | .arr _ => true
  | .obj _ => true

/-! ## Base64 and UTF-8 codecs

Models of Node's `Buffer.from(s, 'base64')`, `Buffer.from(s)` and
`buf.toString('utf-8')`.  Node's base64 decoder silently skips
characters outside the base64 alphabet (including `=` padding) and
drops a trailing lone sextet; it never throws. -/

/-- Value of a base64 alphabet character, `none` for characters the
decoder skips. -/
def b64Value (c : Char) : Option Nat :=
  if 'A' ≤ c ∧ c ≤ 'Z' then some (c.toNat - 'A'.toNat)
  else if 'a' ≤ c ∧ c ≤ 'z' then some (c.toNat - 'a'.toNat + 26)
  else if '0' ≤ c ∧ c ≤ '9' then some (c.toNat - '0'.toNat + 52)
  else if c = '+' then some 62
  else if c = '/' then some 63
  else none

/-- Base64 alphabet character for a sextet value. -/
def b64Char (n : Nat) : Char :=
  if n < 26 then Char.ofNat ('A'.toNat + n)
  else if n < 52 then Char.ofNat ('a'.toNat + (n - 26))
  else if n < 62 then Char.ofNat ('0'.toNat + (n - 52))
  else if n = 62 then '+'
  else '/'

/-- Regroup a list of sextet values into bytes (groups of four sextets
give three bytes; a trailing pair or triple gives one or two bytes). -/
def b64Regroup : List Nat → List Nat
  | a :: b :: c :: d :: rest =>
      (a * 4 + b / 16) :: ((b % 16) * 16 + c / 4) :: ((c % 4) * 64 + d) :: b64Regroup rest
  | [a, b] => [a * 4 + b / 16]
  | [a, b, c] => [a * 4 + b / 16, (b % 16) * 16 + c / 4]
  | _ => []

/-- `Buffer.from(s, 'base64')` — decode to raw bytes, never failing. -/
def base64DecodeBytes (s : String) : List Nat :=
  b64Regroup (s.data.filterMap b64Value)

/-- `buf.toString('base64')` — encode raw bytes with `=` padding. -/
def base64EncodeBytes : List Nat → List Char
  | a :: b :: c :: rest =>
      b64Char (a / 4) :: b64Char ((a % 4) * 16 + b / 16) ::
      b64Char ((b % 16) * 4 + c / 64) :: b64Char (c % 64) :: base64EncodeBytes rest
  | [a, b] => [b64Char (a / 4), b64Char ((a % 4) * 16 + b / 16), b64Char ((b % 16) * 4), '=']
  | [a] => [b64Char (a / 4), b64Char ((a % 4) * 16), '=', '=']
  | [] => []

/-- UTF-8 bytes of one character. -/
def charUtf8 (c : Char) : List Nat :=
  let n := c.toNat
  if n < 0x80 then [n]
  else if n < 0x800 then [0xC0 + n / 64, 0x80 + n % 64]
  else if n < 0x10000 then [0xE0 + n / 4096, 0x80 + (n / 64) % 64, 0x80 + n % 64]
  else [0xF0 + n / 262144, 0x80 + (n / 4096) % 64, 0x80 + (n / 64) % 64, 0x80 + n % 64]

/-- `Buffer.from(s)` — UTF-8 encode a string. -/
def utf8Encode (s : String) : List Nat :=
  s.data.flatMap charUtf8

/-- Is a byte a UTF-8 continuation byte? -/
def isCont (b : Nat) : Bool := 0x80 ≤ b ∧ b < 0xC0

/-- One step of UTF-8 decoding: decode a leading sequence, replacing an
invalid sequence by U+FFFD (Node's replacement policy), and return the
remaining bytes.  Fuel-driven so that the recursion is structural. -/
def utf8DecodeGo : Nat → List Nat → List Char
  | 0, _ => []
  | _, [] => []
  | fuel + 1, b :: rest =>
      if b < 0x80 then Char.ofNat b :: utf8DecodeGo fuel rest
      else if b < 0xC0 then Char.ofNat 0xFFFD :: utf8DecodeGo fuel rest
      else if b < 0xE0 then
        match rest with
        | b2 :: rest2 =>
            if isCont b2 then Char.ofNat ((b - 0xC0) * 64 + (b2 - 0x80)) :: utf8DecodeGo fuel rest2
            else Char.ofNat 0xFFFD :: utf8DecodeGo fuel rest
        | [] => [Char.ofNat 0xFFFD]
      else if b < 0xF0 then
        match rest with
        | b2 :: b3 :: rest3 =>
            if isCont b2 ∧ isCont b3 then
              Char.ofNat ((b - 0xE0) * 4096 + (b2 - 0x80) * 64 + (b3 - 0x80)) :: utf8DecodeGo fuel rest3
            else Char.ofNat 0xFFFD :: utf8DecodeGo fuel rest
        | _ => Char.ofNat 0xFFFD :: utf8DecodeGo fuel rest.tail
      else
        match rest with
        | b2 :: b3 :: b4 :: rest4 =>
            if isCont b2 ∧ isCont b3 ∧ isCont b4 then
              Char.ofNat ((b - 0xF0) * 262144 + (b2 - 0x80) * 4096 + (b3 - 0x80) * 64 + (b4 - 0x80)) ::
                utf8DecodeGo fuel rest4
            else Char.ofNat 0xFFFD :: utf8DecodeGo fuel rest
        | _ => Char.ofNat 0xFFFD :: utf8DecodeGo fuel rest.tail

/-- `buf.toString('utf-8')` — UTF-8 decode, with U+FFFD replacement. -/
def utf8Decode (bytes : List Nat) : String :=
  String.mk (utf8DecodeGo (bytes.length + 1) bytes)

/-! ## JSON.parse / JSON.stringify

A recursive-descent model of `JSON.parse` (numeric literals restricted
to integers) and of `JSON.stringify`.  `JSON.parse` throwing is
modelled by `none`. -/

/-- Skip JSON whitespace. -/
def skipWs : List Char → List Char
  | c :: rest => if c = ' ' ∨ c = '\t' ∨ c = '\n' ∨ c = '\r' then skipWs rest else c :: rest
  | [] => []

/-- Value of a hexadecimal digit. -/
def hexVal (c : Char) : Option Nat :=
  if '0' ≤ c ∧ c ≤ '9' then some (c.toNat - '0'.toNat)
  else if 'a' ≤ c ∧ c ≤ 'f' then some (c.toNat - 'a'.toNat + 10)
  else if 'A' ≤ c ∧ c ≤ 'F' then some (c.toNat - 'A'.toNat + 10)
  else none

/-- Parse the body of a JSON string literal (after the opening quote),
returning the decoded characters and the input after the closing
quote. -/
def parseStrGo : Nat → List Char → Option (List Char × List Char)
  | 0, _ => none
  | _, [] => none
  | fuel + 1, c :: rest =>
    if c = '"' then some ([], rest)
    else if c = '\\' then
      match rest with
      | e :: rest2 =>
        if e = '"' ∨ e = '\\' ∨ e = '/' then
          (fun p => (e :: p.1, p.2)) <$> parseStrGo fuel rest2
        else if e = 'b' then (fun p => (Char.ofNat 0x08 :: p.1, p.2)) <$> parseStrGo fuel rest2
        else if e = 'f' then (fun p => (Char.ofNat 0x0C :: p.1, p.2)) <$> parseStrGo fuel rest2
        else if e = 'n' then (fun p => ('\n' :: p.1, p.2)) <$> parseStrGo fuel rest2
        else if e = 'r' then (fun p => (Char.ofNat 0x0D :: p.1, p.2)) <$> parseStrGo fuel rest2
        else if e = 't' then (fun p => ('\t' :: p.1, p.2)) <$> parseStrGo fuel rest2
        else if e = 'u' then
          match rest2 with
          | h1 :: h2 :: h3 :: h4 :: rest3 =>
            match hexVal h1, hexVal h2, hexVal h3, hexVal h4 with
            | some a, some b, some g, some d =>
                (fun p => (Char.ofNat (a * 4096 + b * 256 + g * 16 + d) :: p.1, p.2)) <$>
                  parseStrGo fuel rest3
            | _, _, _, _ => none
          | _ => none
        else none
      | [] => none
    else if c.toNat < 0x20 then none
    else (fun p => (c :: p.1, p.2)) <$> parseStrGo fuel rest

/-- Accumulate a run of decimal digits. -/
def parseDigitsGo (acc : Nat) : List Char → Nat × List Char
  | c :: rest =>
      if c.isDigit then parseDigitsGo (acc * 10 + (c.toNat - '0'.toNat)) rest
      else (acc, c :: rest)
  | [] => (acc, [])

/-- Parse a non-empty run of decimal digits. -/
def parseDigits : List Char → Option (Nat × List Char)
  | c :: rest => if c.isDigit then some (parseDigitsGo (c.toNat - '0'.toNat) rest) else none
  | [] => none

mutual

/-- Parse one JSON value, returning it and the remaining input. -/
def parseVal : Nat → List Char → Option (Json × List Char)
  | 0, _ => none
  | fuel + 1, input =>
    match skipWs input with
    | 'n' :: 'u' :: 'l' :: 'l' :: rest => some (.null, rest)
    | 't' :: 'r' :: 'u' :: 'e' :: rest => some (.bool true, rest)
    | 'f' :: 'a' :: 'l' :: 's' :: 'e' :: rest => some (.bool false, rest)
    | '"' :: rest =>
        (fun p => (Json.str (String.mk p.1), p.2)) <$> parseStrGo (rest.length + 1) rest
    | '-' :: rest => (fun p => (Json.num (-(p.1 : Int)), p.2)) <$> parseDigits rest
    | '[' :: rest =>
        (match skipWs rest with
         | ']' :: rest2 => some (Json.arr [], rest2)
         | other => (fun p => (Json.arr p.1, p.2)) <$> parseArrGo fuel other)
    | '{' :: rest =>
        (match skipWs rest with
         | '}' :: rest2 => some (Json.obj [], rest2)
         | other => (fun p => (Json.obj p.1, p.2)) <$> parseObjGo fuel other)
    | c :: rest =>
        if c.isDigit then (fun p => (Json.num (p.1 : Int), p.2)) <$> parseDigits (c :: rest)
        else none
    | [] => none

/-- Parse the elements of a non-empty JSON array (after any `[`). -/
def parseArrGo : Nat → List Char → Option (List Json × List Char)
  | 0, _ => none
  | fuel + 1, input =>
    match parseVal fuel input with
    | none => none
    | some (v, rest) =>
      match skipWs rest with
      | ',' :: rest2 => (fun p => (v :: p.1, p.2)) <$> parseArrGo fuel rest2
      | ']' :: rest2 => some ([v], rest2)
      | _ => none

/-- Parse the members of a non-empty JSON object (after any `{`). -/
def parseObjGo : Nat → List Char → Option (List (String × Json) × List Char)
  | 0, _ => none
  | fuel + 1, input =>
    match skipWs input with
    | '"' :: rest =>
      match parseStrGo (rest.length + 1) rest with
      | none => none
      | some (key, rest2) =>
        match skipWs rest2 with
        | ':' :: rest3 =>
          match parseVal fuel rest3 with
          | none => none
          | some (v, rest4) =>
            match skipWs rest4 with
            | ',' :: rest5 =>
                (fun p => ((String.mk key, v) :: p.1, p.2)) <$> parseObjGo fuel rest5
            | '}' :: rest5 => some ([(String.mk key, v)], rest5)
            | _ => none
        | _ => none
    | _ => none

end

/-- `JSON.parse` — `none` models a thrown `SyntaxError`. -/
def jsonParse (s : String) : Option Json :=
  match parseVal (2 * s.data.length + 8) s.data with
  | some (j, rest) => if skipWs rest = [] then some j else none
  | none => none

/-- Escape one character for a JSON string literal. -/
def escapeChar (c : Char) : List Char :=
  if c = '"' then ['\\', '"']
  else if c = '\\' then ['\\', '\\']
  else if c.toNat < 0x20 then
    ['\\', 'u', '0', '0',
     (if c.toNat / 16 < 10 then Char.ofNat ('0'.toNat + c.toNat / 16)
      else Char.ofNat ('a'.toNat + c.toNat / 16 - 10)),
     (if c.toNat % 16 < 10 then Char.ofNat ('0'.toNat + c.toNat % 16)
      else Char.ofNat ('a'.toNat + c.toNat % 16 - 10))]
  else [c]

/-- Render a JSON string literal. -/
def quoteStr (s : String) : String :=
  String.mk ('"' :: s.data.flatMap escapeChar ++ ['"'])

mutual

/-- `JSON.stringify` on a JSON value. -/
def Json.stringify : Json → String
  | .null => "null"
  | .bool true => "true"
  | .bool false => "false"
  | .num n => toString n
  | .str s => quoteStr s
  | .arr xs => "[" ++ stringifyList xs ++ "]"
  | .obj fs => "\x7b" ++ stringifyFields fs ++ "\x7d"

/-- Comma-separated rendering of array elements. -/
def stringifyList : List Json → String
  | [] => ""
  | [x] => Json.stringify x
  | x :: rest => Json.stringify x ++ "," ++ stringifyList rest

/-- Comma-separated rendering of object members. -/
def stringifyFields : List (String × Json) → String
  | [] => ""
  | [(k, v)] => quoteStr k ++ ":" ++ Json.stringify v
  | (k, v) :: rest => quoteStr k ++ ":" ++ Json.stringify v ++ "," ++ stringifyFields rest

end

/-- `Buffer.from(s).toString('base64')`. -/
def base64EncodeStr (s : String) : String :=
  String.mk (base64EncodeBytes (utf8Encode s))

/-- `Buffer.from(s, 'base64').toString('utf-8')`. -/
def base64DecodeStr (s : String) : String :=
  utf8Decode (base64DecodeBytes s)

/-- `Buffer.from(JSON.stringify(x)).toString('base64')` — the encoding
used for every x402 header value. -/
def jsonToB64 (j : Json) : String :=
  base64EncodeStr (Json.stringify j)

/-- JavaScript member access `v.f`: `none` models `undefined`. -/
def Json.getField : Json → String → Option Json
  | .obj fields, name => fields.lookup name
  | _, _ => none

/-- `typeof v === 'object'` for a parsed JSON value: true for objects,
arrays and `null`. -/
def Json.typeofObject : Json → Bool
  | .obj _ => true
  | .arr _ => true
  | .null => true
  | _ => false

/-! ## Protocol data types (types.ts / types-v2.ts) -/

/-- `NetworkType` — the legacy (V1) network name. -/
inductive NetworkType where
  | mainnet
  | testnet
deriving DecidableEq, Repr

/-- `TokenType` — the closed asset-kind enumeration
`'STX' | 'sBTC' | 'USDCx'`. -/
inductive TokenType where
  | STX
  | sBTC
  | USDCx
deriving DecidableEq, Repr

/-- `TokenContract` — a SIP-010 contract binding. -/
structure TokenContract where
  address : String
  name : String
deriving DecidableEq, Repr

/-- `StacksAccount` — the client credential. -/
structure StacksAccount where
  address : String
  privateKey : String
  network : NetworkType
deriving DecidableEq, Repr

/-- `PaymentRequirementsV2` — one acceptable way to pay.  The Lean
model keeps the fields that the library's control flow reads; the
opaque passthrough field `extra` is omitted. -/
structure PaymentRequirementsV2 where
  scheme : String
  network : String
  amount : String
  asset : String
  payTo : String
  maxTimeoutSeconds : Int
deriving DecidableEq, Repr

/-- `SettlementResponseV2` — the facilitator settle result. -/
structure SettlementResponseV2 where
  success : Bool
  errorReason : Option String
  payer : Option String
  transaction : String
  network : String
deriving DecidableEq, Repr

/-- `X402_ERROR_CODES.UNEXPECTED_SETTLE_ERROR`. -/
def errUnexpectedSettle : String := "unexpected_settle_error"

/-- `X402_ERROR_CODES.INVALID_PAYLOAD`. -/
def errInvalidPayload : String := "invalid_payload"

/-- `X402_ERROR_CODES.INVALID_X402_VERSION`. -/
def errInvalidVersion : String := "invalid_x402_version"

/-! ## Header decoders (interceptor-v2.ts / middleware-v2.ts)

Each decoder wraps `Buffer.from(h, 'base64').toString('utf-8')`
followed by `JSON.parse` in a `try/catch` that returns `null`; the
model returns `none` exactly where the source returns `null`, and is
total (no exception can escape). -/

/-- `decodePaymentRequired` — `null`/`undefined`/empty headers are
rejected up front by the `if (!header)` guard. -/
def decodePaymentRequired (header : Option String) : Option Json :=
  match header with
  | none => none
  | some h => if h = "" then none else jsonParse (base64DecodeStr h)

/-- `decodePaymentResponse` — same structure as
`decodePaymentRequired`. -/
def decodePaymentResponse (header : Option String) : Option Json :=
  match header with
  | none => none
  | some h => if h = "" then none else jsonParse (base64DecodeStr h)

/-- `parsePaymentRequiredHeader` — no explicit falsy guard; a
`null`/`undefined` argument makes `Buffer.from` throw inside the
`try`, which the `catch` turns into `null` (`none` here). -/
def parsePaymentRequiredHeader (header : Option String) : Option Json :=
  match header with
  | none => none
  | some h => jsonParse (base64DecodeStr h)

/-- `parsePaymentResponseHeader` — same structure as
`parsePaymentRequiredHeader`. -/
def parsePaymentResponseHeader (header : Option String) : Option Json :=
  match header with
  | none => none
  | some h => jsonParse (base64DecodeStr h)

/-! ## Asset/network identifier mapping

The repository's CAIP-2 utility module (`networkToCAIP2`,
`networkFromCAIP2`, `assetToV2`, `assetFromV2`) is exported by the
library index but its source file is not part of the provided tree, so
these four functions are modelled from the specification. -/

/-- Error raised by the network mapper on an unrecognized chain id. -/
inductive CaipErr where
  | unsupportedNetwork (caip2 : String)
deriving DecidableEq, Repr

/-- Modelled from the spec: `networkFromCAIP2` is the inverse of the
total map {mainnet ↦ "stacks:1", testnet ↦ "stacks:2147483648"} over
the closed enumeration, and "inverse on an unrecognized chain
identifier fails with `UnsupportedNetwork`". -/
def networkFromCAIP2 (caip2 : String) : Except CaipErr NetworkType :=
  if caip2 = "stacks:1" then .ok .mainnet
  else if caip2 = "stacks:2147483648" then .ok .testnet
  else .error (.unsupportedNetwork caip2)

/-- Modelled from the spec: `networkToCAIP2` renders the CAIP-2 id of
a V1 network name. -/
def networkToCAIP2 : NetworkType → String
  | .mainnet => "stacks:1"
  | .testnet => "stacks:2147483648"

/-- Error raised by the asset mapper on a string matching neither
asset shape. -/
inductive AssetErr where
  | malformedAssetId (asset : String)
deriving DecidableEq, Repr

/-- Modelled from the spec: `assetFromV2` parses either a bare asset
symbol (`"STX"`, `"sBTC"`/`"SBTC"`, `"USDCx"`/`"USDCX"`, yielding no
contract binding) or a fully-qualified contract reference
`"<issuer-address>.<contract-name>"` (yielding an embedded binding),
and "fails with `MalformedAssetId` on strings matching neither
pattern".  The spec fixes that a contract reference denotes a fungible
token but not which fungible kind; the model assigns `USDCx` when the
contract name is a known USDC name and `sBTC` otherwise. -/
def assetFromV2 (asset : String) : Except AssetErr (TokenType × Option TokenContract) :=
  if asset = "STX" then .ok (.STX, none)
  else if asset = "sBTC" ∨ asset = "SBTC" then .ok (.sBTC, none)
  else if asset = "USDCx" ∨ asset = "USDCX" then .ok (.USDCx, none)
  else
    let addr := String.mk (asset.data.takeWhile (· ≠ '.'))
    let nm := String.mk ((asset.data.dropWhile (· ≠ '.')).drop 1)
    if asset.data.contains '.' ∧ addr ≠ "" ∧ nm ≠ "" then
      .ok ((if nm = "usdcx" ∨ nm = "usdc" then .USDCx else .sBTC), some ⟨addr, nm⟩)
    else .error (.malformedAssetId asset)

/-! ## Transaction signer (interceptor-v2.ts) -/

/-- Errors thrown by `signPaymentV2`.  `missingBinding` is the
`'Token contract required for ... payments'` throw. -/
inductive SignErr where
  | invalidAmount (amount : String)
  | malformedAsset (asset : String)
  | unsupportedNetwork (caip2 : String)
  | missingBinding (tokenType : TokenType)
deriving DecidableEq, Repr

/-- The signed-but-unbroadcast transaction `signPaymentV2` constructs.
`contractCall` records an invocation of `makeContractCall` on the
token contract's `transfer` entry point; `stxTransfer` records an
invocation of `makeSTXTokenTransfer`.  These two constructors are the
only points at which the underlying signing library (and hence the
network, for nonce/fee lookup) is reached; an `.error` result performs
neither. -/
inductive SignOutcome where
  | contractCall (contract : TokenContract) (amount : Int)
      (sender recipient memo : String)
  | stxTransfer (recipient : String) (amount : Int) (memo : String)
deriving DecidableEq, Repr

/-- JavaScript whitespace (the subset relevant here). -/
def jsWs (c : Char) : Bool :=
  c = ' ' ∨ c = '\t' ∨ c = '\n' ∨ c = '\r'

/-- `s.startsWith(pre)` on JavaScript strings. -/
def jsStartsWith (s pre : String) : Bool :=
  pre.data.isPrefixOf s.data

/-- Digits of a decimal numeral. -/
def digitsToNat : Nat → List Char → Option Nat
  | acc, [] => some acc
  | acc, c :: rest =>
      if c.isDigit then digitsToNat (acc * 10 + (c.toNat - '0'.toNat)) rest else none

/-- JavaScript `BigInt(string)`: trims whitespace, maps the empty
string to `0`, accepts an optional sign followed by decimal digits,
and throws (`none`) otherwise. -/
def parseBigInt (s : String) : Option Int :=
  let t := ((s.data.dropWhile jsWs).reverse.dropWhile jsWs).reverse
  if t = [] then some 0
  else
    match t with
    | '-' :: ds => if ds = [] then none else (digitsToNat 0 ds).map (fun n => -(n : Int))
    | '+' :: ds => if ds = [] then none else (digitsToNat 0 ds).map (fun n => (n : Int))
    | ds => (digitsToNat 0 ds).map (fun n => (n : Int))

/-- `getTokenContractForAsset` — the embedded binding if the asset
identifier carries one, else the built-in per-(asset-kind, network)
defaults table, else `undefined`. -/
def getTokenContractForAsset (asset : String) (network : NetworkType) :
    Except AssetErr (Option TokenContract) :=
  match assetFromV2 asset with
  | .error e => .error e
  | .ok (_, some tokenContract) => .ok (some tokenContract)
  | .ok (tokenType, none) =>
    match tokenType with
    | .sBTC => .ok (some (if network = .mainnet then
        ⟨"SM3VDXK3WZZSA84XXFKAFAF15NNZX32CTSG82JFQ4", "sbtc-token"⟩
      else
        ⟨"ST1F7QA2MDF17S807EPA36TSS8AMEFY4KA9TVGWXT", "sbtc-token"⟩))
    | .USDCx => .ok (some (if network = .mainnet then
        ⟨"SP120SBRBQJ00MCWS7TM5R8WJNTTKD5K0HFRC2CNE", "usdcx"⟩
      else
        ⟨"ST1PQHQKV0RJXZFY1DGX8MNSNYVE3VGZJSRTPGZGM", "usdcx"⟩))
    | .STX => .ok none

/-- `signPaymentV2` — sign (without broadcasting) the transfer
demanded by one payment requirement.  `memoSeed` stands for
`Date.now().toString(36)`, the only impure input. -/
def signPaymentV2 (paymentRequirements : PaymentRequirementsV2) (account : StacksAccount)
    (memoSeed : String) : Except SignErr SignOutcome :=
  match parseBigInt paymentRequirements.amount with
  | none => .error (.invalidAmount paymentRequirements.amount)
  | some amount =>
    match assetFromV2 paymentRequirements.asset with
    | .error (.malformedAssetId a) => .error (.malformedAsset a)
    | .ok (tokenType, _) =>
      match networkFromCAIP2 paymentRequirements.network with
      | .error (.unsupportedNetwork c) => .error (.unsupportedNetwork c)
      | .ok v1Network =>
        let memo := String.mk (("x402:" ++ memoSeed).data.take 34)
        if tokenType = .sBTC ∨ tokenType = .USDCx then
          match getTokenContractForAsset paymentRequirements.asset v1Network with
          | .error (.malformedAssetId a) => .error (.malformedAsset a)
          | .ok none => .error (.missingBinding tokenType)
          | .ok (some tokenContract) =>
              .ok (.contractCall tokenContract amount account.address
                    paymentRequirements.payTo memo)
        else
          .ok (.stxTransfer paymentRequirements.payTo amount memo)

/-! ## Client-side payment negotiator (interceptor-v2.ts) -/

/-- `selectPaymentOption` — `accepts.find` with a predicate that keeps
only options on a Stacks network equal to the account's network.  The
predicate calls `networkFromCAIP2`, whose failure on an unrecognized
`stacks:`-prefixed id propagates out of the search. -/
def selectPaymentOption : List PaymentRequirementsV2 → StacksAccount →
    Except CaipErr (Option PaymentRequirementsV2)
  | [], _ => .ok none
  | opt :: rest, account =>
    if jsStartsWith opt.network "stacks:" then
      match networkFromCAIP2 opt.network with
      | .error e => .error e
      | .ok v1Network =>
          if v1Network = account.network then .ok (some opt)
          else selectPaymentOption rest account
    else selectPaymentOption rest account

/-- The selection predicate of `selectPaymentOption`, as a total
Boolean: a Stacks-prefixed network whose chain id maps exactly to the
account's network. -/
def isCompatibleOption (opt : PaymentRequirementsV2) (account : StacksAccount) : Bool :=
  jsStartsWith opt.network "stacks:" &&
    (match networkFromCAIP2 opt.network with
     | .ok v1Network => v1Network = account.network
     | .error _ => false)

/-- `isValidPaymentRequestV2` — shape check on the (already parsed)
response body: a non-null object with `x402Version === 2`, an
object-typed `resource` and a non-empty `accepts` array. -/
def isValidPaymentRequestV2 (data : Json) : Bool :=
  (match data with
   | .obj _ => true
   | .arr _ => true
   | _ => false) &&
  (match data.getField "x402Version" with
   | some (.num 2) => true
   | _ => false) &&
  (match data.getField "resource" with
   | some r => r.typeofObject
   | none => false) &&
  (match data.getField "accepts" with
   | some (.arr (_ :: _)) => true
   | _ => false)

/-- Read a string-typed field of a JSON object. -/
def getStrField (j : Json) (key : String) : Option String :=
  match j.getField key with
  | some (.str s) => some s
  | _ => none

/-- Convert a JSON accepts-entry into the typed requirement record the
negotiator and signer consume.  The source uses the decoded JSON
unchecked (a TypeScript cast); field accesses on a value of the wrong
shape raise a dynamic `TypeError`, which the model surfaces as a
failed conversion. -/
def toRequirement (j : Json) : Option PaymentRequirementsV2 := do
  let network ← getStrField j "network"
  let amount ← getStrField j "amount"
  let asset ← getStrField j "asset"
  let payTo ← getStrField j "payTo"
  pure
    { scheme := (getStrField j "scheme").getD ""
      network := network
      amount := amount
      asset := asset
      payTo := payTo
      maxTimeoutSeconds :=
        match j.getField "maxTimeoutSeconds" with
        | some (.num n) => n
        | _ => 0 }

/-- Render a typed requirement back to JSON (for the `accepted` field
echoed inside the payment payload). -/
def reqToJson (r : PaymentRequirementsV2) : Json :=
  .obj [("scheme", .str r.scheme), ("network", .str r.network), ("amount", .str r.amount),
        ("asset", .str r.asset), ("payTo", .str r.payTo),
        ("maxTimeoutSeconds", .num r.maxTimeoutSeconds)]

/-- The decoded payment-required notice, as the negotiator uses it:
the `resource` echo and the `accepts` list. -/
structure NoticeT where
  resource : Option Json
  accepts : List PaymentRequirementsV2
deriving Repr

/-- View a decoded notice JSON value through the accesses
(`.accepts`, `.resource`) the negotiator performs. -/
def toNotice (j : Json) : Option NoticeT :=
  match j.getField "accepts" with
  | some (.arr xs) => (xs.mapM toRequirement).map (fun rs => ⟨j.getField "resource", rs⟩)
  | _ => none

/-- An axios request config; `id` stands for the JavaScript object
identity by which the `WeakSet` tracks attempted requests. -/
structure ReqConfig where
  id : Nat
  url : String
  headers : List (String × String)
deriving DecidableEq, Repr

/-- The error object the response interceptor receives: the original
request config, `error.response?.status`, the `payment-required`
response header and the parsed response body. -/
structure ErrorInfo where
  config : ReqConfig
  status : Option Nat
  paymentRequiredHeader : Option String
  body : Json

/-- A JavaScript exception escaping the 402 handler (outside its
`try/catch` around signing). -/
inductive JsErr where
  | typeError
  | unsupportedNetwork (caip2 : String)
deriving DecidableEq, Repr

/-- The `Error` values with which the 402 handler rejects. -/
inductive RejectReason where
  | alreadyAttempted
  | invalidNotice
  | noCompatibleOption (networks : List String)
  | signingFailed (msg : String)
deriving DecidableEq, Repr

/-- The exact message string of each rejection `Error`. -/
def RejectReason.message : RejectReason → String
  | .alreadyAttempted => "Payment already attempted for this request"
  | .invalidNotice => "Invalid x402 v2 payment request from server"
  | .noCompatibleOption networks =>
      "No compatible payment option found. Available networks: " ++
        String.intercalate ", " networks
  | .signingFailed msg => "Payment signing failed: " ++ msg

/-- Result of one run of the 402 response interceptor. -/
inductive Action where
  | rejectOriginal
  | reject (reason : RejectReason)
  | throwJs (e : JsErr)
  | retry (cfg : ReqConfig)
deriving DecidableEq, Repr

/-- Replace (or add) one request header. -/
def setHeader (headers : List (String × String)) (key value : String) :
    List (String × String) :=
  (headers.filter (fun kv => kv.1 ≠ key)) ++ [(key, value)]

/-- The V2 payment payload object built after signing
(`x402Version`, optional `resource` echo, `accepted`, `payload`);
`JSON.stringify` drops an `undefined` resource. -/
def buildPaymentPayload (resource : Option Json) (accepted : PaymentRequirementsV2)
    (transaction : String) : Json :=
  .obj ([("x402Version", .num 2)] ++
        (match resource with
         | some r => [("resource", r)]
         | none => []) ++
        [("accepted", reqToJson accepted),
         ("payload", .obj [("transaction", .str transaction)])])

/-- `encodePaymentPayload` — base64 of the JSON payload. -/
def encodePaymentPayload (payload : Json) : String :=
  jsonToB64 payload

/-- The payment-required notice value the 402 handler works on: the
decoded `payment-required` response header when it is present and
truthy, else the response body when it passes the V2 shape check. -/
def noticeJson (err : ErrorInfo) : Json :=
  let fromHeader : Json :=
    match err.paymentRequiredHeader with
    | some h =>
        if h ≠ "" then
          match decodePaymentRequired (some h) with
          | some j => j
          | none => .null
        else .null
    | none => .null
  if !fromHeader.truthy && isValidPaymentRequestV2 err.body then err.body else fromHeader

/-- The 402 error handler installed by `wrapAxiosWithPayment`.
`attempted` is the `WeakSet` of request identities with payment
already attempted; `sign` is the call to `signPaymentV2` (kept as a
parameter so that theorems can state that rejected paths never invoke
the signer).  Returns the updated attempted-set and the handler's
outcome. -/
def handle402 (sign : PaymentRequirementsV2 → StacksAccount → Except String String)
    (attempted : List Nat) (err : ErrorInfo) (account : StacksAccount) :
    List Nat × Action :=
  if err.status ≠ some 402 then (attempted, .rejectOriginal)
  else if err.config.id ∈ attempted then (attempted, .reject .alreadyAttempted)
  else
    let attempted' := err.config.id :: attempted
    let pr : Json := noticeJson err
    if !pr.truthy then (attempted', .reject .invalidNotice)
    else
      match toNotice pr with
      | none => (attempted', .throwJs .typeError)
      | some notice =>
        match selectPaymentOption notice.accepts account with
        | .error (.unsupportedNetwork c) => (attempted', .throwJs (.unsupportedNetwork c))
        | .ok none =>
            (attempted', .reject (.noCompatibleOption (notice.accepts.map (·.network))))
        | .ok (some selectedOption) =>
          match sign selectedOption account with
          | .error msg => (attempted', .reject (.signingFailed msg))
          | .ok signedTransaction =>
            let payload := buildPaymentPayload notice.resource selectedOption signedTransaction
            (attempted',
             .retry { err.config with
                        headers := setHeader err.config.headers "payment-signature"
                          (encodePaymentPayload payload) })

/-! ## Facilitator client (verifier-v2.ts) -/

/-- The (partial) error body an axios error may carry back from the
facilitator; every field may be absent. -/
structure SettleErrorBody where
  errorReason : Option String
  payer : Option String
  transaction : Option String
  network : Option String
deriving DecidableEq, Repr

/-- Outcome of the POST to the facilitator `/settle` endpoint.
`httpError` is an axios error with a truthy structured body
(`error.response?.data`) or without one; `netError` is a connection
error or timeout. -/
inductive SettleTransport where
  | ok (data : SettlementResponseV2)
  | httpError (body : Option SettleErrorBody)
  | netError
deriving DecidableEq, Repr

/-- JavaScript `a || b` over an optional string: falsy (`undefined` or
`""`) falls through to the default. -/
def orFalsy (v : Option String) (d : String) : String :=
  match v with
  | some s => if s = "" then d else s
  | none => d

/-- `X402PaymentVerifier.settle` — returns the facilitator's response
data on success, and normalizes every transport-level failure into a
well-formed failure `SettlementResponseV2` instead of throwing. -/
def X402PaymentVerifier.settle (transport : SettleTransport)
    (paymentRequirements : PaymentRequirementsV2) : SettlementResponseV2 :=
  match transport with
  | .ok data => data
  | .httpError (some errorData) =>
      { success := false
        errorReason := some (orFalsy errorData.errorReason errUnexpectedSettle)
        payer := errorData.payer
        transaction := orFalsy errorData.transaction ""
        network := orFalsy errorData.network paymentRequirements.network }
  | .httpError none =>
      { success := false
        errorReason := some errUnexpectedSettle
        payer := none
        transaction := ""
        network := paymentRequirements.network }
  | .netError =>
      { success := false
        errorReason := some errUnexpectedSettle
        payer := none
        transaction := ""
        network := paymentRequirements.network }

/-! ## V2 payment gate (middleware-v2.ts) -/

/-- Server configuration for `paymentMiddleware`.  `network`, `amount`
and `asset` are modelled after normalization (CAIP-2 network, decimal
amount string, resolved asset identifier), which happens once at
middleware construction. -/
structure PaymentMiddlewareConfig where
  scheme : Option String
  network : String
  amount : String
  asset : String
  payTo : String
  maxTimeoutSeconds : Option Int
  description : Option String
  mimeType : Option String
  paymentValidator : Option (SettlementResponseV2 → Bool)

/-- The inbound request fields the V2 gate reads. -/
structure HttpReq where
  paymentSignatureHeader : Option String
  protocol : String
  host : String
  originalUrl : String
deriving DecidableEq, Repr

/-- `config.maxTimeoutSeconds || 300` (`0` is falsy). -/
def orFalsyInt (v : Option Int) (d : Int) : Int :=
  match v with
  | some n => if n = 0 then d else n
  | none => d

/-- The `PaymentRequirementsV2` the gate builds from its config. -/
def middlewareRequirements (config : PaymentMiddlewareConfig) : PaymentRequirementsV2 :=
  { scheme := orFalsy config.scheme "exact"
    network := config.network
    amount := config.amount
    asset := config.asset
    payTo := config.payTo
    maxTimeoutSeconds := orFalsyInt config.maxTimeoutSeconds 300 }

/-- `createPaymentRequiredResponse` — the 402 notice body:
`{x402Version: 2, resource, accepts: [requirement]}` with
`undefined` optional fields dropped. -/
def createPaymentRequiredResponse (req : HttpReq) (config : PaymentMiddlewareConfig) : Json :=
  let r := middlewareRequirements config
  .obj [("x402Version", .num 2),
        ("resource", .obj
          ([("url", .str (req.protocol ++ "://" ++ req.host ++ req.originalUrl))] ++
           (match config.description with
            | some d => [("description", .str d)]
            | none => []) ++
           (match config.mimeType with
            | some m => [("mimeType", .str m)]
            | none => []))),
        ("accepts", .arr [reqToJson r])]

/-- Outcome of the V2 gate on one request: an HTTP response, or
invocation of the wrapped handler with the settlement evidence
attached to the request and the named response headers set. -/
inductive GateOutcome where
  | respond (status : Nat) (body : Json) (headers : List (String × String))
  | handler (attachedPayment : SettlementResponseV2) (headers : List (String × String))

/-- `paymentMiddleware` — one request through the V2 payment gate.
`settle` stands for the facilitator client's `settle` call (the
payload it receives is the decoded `payment-signature` JSON). -/
def paymentMiddleware (config : PaymentMiddlewareConfig) (req : HttpReq)
    (settle : Json → PaymentRequirementsV2 → SettlementResponseV2) : GateOutcome :=
  match req.paymentSignatureHeader with
  | none => .respond 402 (createPaymentRequiredResponse req config)
      [("payment-required", jsonToB64 (createPaymentRequiredResponse req config))]
  | some h =>
    if h = "" then
      .respond 402 (createPaymentRequiredResponse req config)
        [("payment-required", jsonToB64 (createPaymentRequiredResponse req config))]
    else
      match jsonParse (base64DecodeStr h) with
      | none =>
          .respond 400
            (.obj [("error", .str errInvalidPayload),
                   ("message", .str "Invalid payment-signature header: failed to decode")])
            []
      | some paymentPayload =>
        if (match paymentPayload.getField "x402Version" with
            | some (.num 2) => true
            | _ => false) = false then
          .respond 400
            (.obj [("error", .str errInvalidVersion),
                   ("message", .str "Only x402 v2 is supported")])
            []
        else
          let paymentRequirements := middlewareRequirements config
          let settlementResult := settle paymentPayload paymentRequirements
          if !settlementResult.success then
            .respond 402
              (.obj ([("error", .str (orFalsy settlementResult.errorReason errUnexpectedSettle))] ++
                     (match settlementResult.payer with
                      | some p => [("payer", .str p)]
                      | none => []) ++
                     [("transaction", .str settlementResult.transaction)]))
              [("payment-required", jsonToB64 (createPaymentRequiredResponse req config))]
          else
            match config.paymentValidator with
            | some validator =>
              if !validator settlementResult then
                .respond 402
                  (.obj [("error", .str "custom_validation_failed"),
                         ("message", .str "Custom validation rejected the payment")])
                  []
              else
                .handler settlementResult
                  [("payment-response", jsonToB64 (.obj
                    ([("success", .bool settlementResult.success)] ++
                     (match settlementResult.payer with
                      | some p => [("payer", .str p)]
                      | none => []) ++
                     [("transaction", .str settlementResult.transaction),
                      ("network", .str settlementResult.network)])))]
            | none =>
              .handler settlementResult
                [("payment-response", jsonToB64 (.obj
                  ([("success", .bool settlementResult.success)] ++
                   (match settlementResult.payer with
                    | some p => [("payer", .str p)]
                    | none => []) ++
                   [("transaction", .str settlementResult.transaction),
                    ("network", .str settlementResult.network)])))]

/-! ## Legacy (V1) payment gate (middleware.ts) -/

/-- Legacy transaction status. -/
inductive PaymentStatus where
  | pending
  | success
  | failed
  | notFound
deriving DecidableEq, Repr

/-- The legacy status strings. -/
def PaymentStatus.toJs : PaymentStatus → String
  | .pending => "pending"
  | .success => "success"
  | .failed => "failed"
  | .notFound => "not_found"

/-- `VerifiedPayment` — the legacy verification record. -/
structure VerifiedPayment where
  isValid : Bool
  status : PaymentStatus
  txId : Option String
  blockHeight : Option Int
  validationError : Option String
deriving DecidableEq, Repr

/-- Legacy middleware configuration (the fields the gate reads). -/
structure X402MiddlewareConfig where
  address : String
  amount : String
  network : NetworkType
  resource : Option String
  tokenType : Option TokenType
  tokenContract : Option TokenContract
  expirationSeconds : Option Int
  paymentValidator : Option (VerifiedPayment → Bool)

/-- The inbound request fields the legacy gate reads.  `xPaymentTxid`
is the coalesced legacy transaction id (header, query or body). -/
structure HttpReqV1 where
  xPayment : Option String
  xPaymentTxid : Option String
  xPaymentTokenType : Option String
  path : String
  method : String
deriving DecidableEq, Repr

/-- Truthiness of an optional header string. -/
def truthyStr : Option String → Bool
  | some s => s ≠ ""
  | none => false

/-- Outcome of the legacy gate on one request. -/
inductive GateOutcomeV1 where
  | respond (status : Nat) (body : Json)
  | handler (attachedPayment : VerifiedPayment) (headers : List (String × String))

/-- `x402PaymentRequired` — one request through the legacy payment
gate, with the facilitator calls stubbed: `settlePayment` receives the
signed payment blob and `verifyPayment` the legacy transaction id;
`nonce` and `expiresAt` stand for the fresh nonce and expiry timestamp
of a newly built notice. -/
def x402PaymentRequired (config : X402MiddlewareConfig) (req : HttpReqV1)
    (settlePayment : String → VerifiedPayment) (verifyPayment : String → VerifiedPayment)
    (nonce : String) (expiresAt : String) : GateOutcomeV1 :=
  if !truthyStr req.xPayment && !truthyStr req.xPaymentTxid then
    .respond 402
      (.obj ([("maxAmountRequired", .str config.amount),
              ("resource", .str ((config.resource).getD req.path)),
              ("payTo", .str config.address),
              ("network", .str (match config.network with
                                | .mainnet => "mainnet"
                                | .testnet => "testnet")),
              ("nonce", .str nonce),
              ("expiresAt", .str expiresAt)] ++
             (match config.tokenType with
              | some .STX => [("tokenType", .str "STX")]
              | some .sBTC => [("tokenType", .str "sBTC")]
              | some .USDCx => [("tokenType", .str "USDCx")]
              | none => []) ++
             (match config.tokenContract with
              | some c => [("tokenContract", .obj [("address", .str c.address),
                                                   ("name", .str c.name)])]
              | none => [])))
  else
    let verification :=
      match req.xPayment with
      | some signedPayment =>
          if signedPayment ≠ "" then settlePayment signedPayment
          else verifyPayment ((req.xPaymentTxid).getD "")
      | none => verifyPayment ((req.xPaymentTxid).getD "")
    if !verification.isValid then
      .respond 402
        (.obj ([("error", .str "Invalid payment")] ++
               (match verification.validationError with
                | some d => [("details", .str d)]
                | none => []) ++
               [("paymentStatus", .str verification.status.toJs)]))
    else if verification.status = .pending then
      .respond 402
        (.obj [("error", .str "Payment not yet confirmed"),
               ("details", .str "Please wait for transaction confirmation on the blockchain"),
               ("paymentStatus", .str "pending")])
    else if verification.status = .failed then
      .respond 402
        (.obj [("error", .str "Payment failed"),
               ("details", .str "Transaction failed on blockchain"),
               ("paymentStatus", .str "failed")])
    else
      match config.paymentValidator with
      | some validator =>
        if !validator verification then
          .respond 402
            (.obj [("error", .str "Payment validation failed"),
                   ("details", .str "Custom validation rejected the payment")])
        else
          .handler verification
            [("X-PAYMENT-RESPONSE", jsonToB64 (.obj
              ((match verification.txId with
                | some t => [("txId", .str t)]
                | none => []) ++
               [("status", .str verification.status.toJs)] ++
               (match verification.blockHeight with
                | some b => [("blockHeight", .num b)]
                | none => []))))]
      | none =>
        .handler verification
          [("X-PAYMENT-RESPONSE", jsonToB64 (.obj
            ((match verification.txId with
              | some t => [("txId", .str t)]
              | none => []) ++
             [("status", .str verification.status.toJs)] ++
             (match verification.blockHeight with
              | some b => [("blockHeight", .num b)]
              | none => []))))]

/-! ## Payment rate limiter (middleware.ts / middleware-v2.ts, identical) -/

/-- Outcome of the rate-limit wrapper on one request: admit within the
free tier, or hand the request to the wrapped payment middleware. -/
inductive RLOutcome where
  | admitFree
  | gated
deriving DecidableEq, Repr

/-- Replace (or add) the binding of `key` in the counter map. -/
def upsert (state : List (String × (Nat × Int))) (key : String) (v : Nat × Int) :
    List (String × (Nat × Int)) :=
  (key, v) :: state.filter (fun kv => kv.1 ≠ key)

/-- `paymentRateLimit` — one request through the rate-limit wrapper.
The counter map binds each key to `{count, resetAt}`; a record whose
`resetAt` lies strictly before `now` is discarded, a missing record is
re-created as `{count: 0, resetAt: now + windowMs}` (and stored even
when the request is then gated), and an admitted request increments
the stored count. -/
def rateLimitStep (freeRequests : Nat) (windowMs : Int)
    (state : List (String × (Nat × Int))) (key : String) (now : Int) :
    List (String × (Nat × Int)) × RLOutcome :=
  let record : Option (Nat × Int) :=
    match state.lookup key with
    | some (c, resetAt) => if resetAt < now then none else some (c, resetAt)
    | none => none
  match record with
  | none =>
      if 0 ≥ freeRequests then (upsert state key (0, now + windowMs), .gated)
      else (upsert state key (1, now + windowMs), .admitFree)
  | some (c, resetAt) =>
      if c ≥ freeRequests then (state, .gated)
      else (upsert state key (c + 1, resetAt), .admitFree)

/-! ## Legacy client (client.ts / utils.ts) -/

/-- `isValidPaymentRequest` — shape check on a legacy 402 body. -/
def isValidPaymentRequest (j : Json) : Bool :=
  (getStrField j "maxAmountRequired").isSome &&
  (getStrField j "resource").isSome &&
  (getStrField j "payTo").isSome &&
  (getStrField j "network").isSome &&
  (getStrField j "nonce").isSome &&
  (getStrField j "expiresAt").isSome &&
  (getStrField j "network" == some "mainnet" || getStrField j "network" == some "testnet")

/-- `isPaymentRequestExpired` — `new Date(expiresAt) < new Date()`.
`parseDate` stands for the host's `Date` parser (epoch milliseconds;
`none` for an Invalid Date, whose comparisons are all false). -/
def isPaymentRequestExpired (parseDate : String → Option Int) (expiresAt : String)
    (now : Int) : Bool :=
  match parseDate expiresAt with
  | some t => t < now
  | none => false

/-- Outcome of the legacy client's 402 handling step. -/
inductive LegacyStep where
  | throwInvalidRequest
  | throwExpired
  | throwSigningFailed (msg : String)
  | retryWithPayment (signedTransaction : String) (tokenType : String)
deriving DecidableEq, Repr

/-- The 402 branch of `X402PaymentClient.requestWithPayment`:
validate the notice, reject if expired, sign, and retry with the
signed payment (plus the `X-PAYMENT-TOKEN-TYPE` companion header).
`sign` stands for `this.signPayment`. -/
def requestWithPayment402 (parseDate : String → Option Int) (now : Int)
    (sign : Json → Except String String) (paymentRequest : Json) : LegacyStep :=
  if !isValidPaymentRequest paymentRequest then .throwInvalidRequest
  else
    let expiresAt := (getStrField paymentRequest "expiresAt").getD ""
    if isPaymentRequestExpired parseDate expiresAt now then .throwExpired
    else
      match sign paymentRequest with
      | .error e => .throwSigningFailed e
      | .ok tx => .retryWithPayment tx ((getStrField paymentRequest "tokenType").getD "STX")

/-- The legacy memo derived from the notice nonce in
`X402PaymentClient.signPayment`: `paymentRequest.nonce.substring(0, 34)`. -/
def signPaymentMemo (nonce : String) : String :=
  String.mk (nonce.data.take 34)

/-- UTF-8 byte length of a string (the on-chain size of a memo). -/
def utf8Len (s : String) : Nat :=
  (utf8Encode s).length

/-- Did the signer construct a token-contract `transfer` invocation? -/
def SignOutcome.isContractCall : SignOutcome → Bool
  | .contractCall _ _ _ _ _ => true
  | .stxTransfer _ _ _ => false

/-- Did the signer construct a native STX transfer? -/
def SignOutcome.isStxTransfer : SignOutcome → Bool
  | .contractCall _ _ _ _ _ => false
  | .stxTransfer _ _ _ => true

/-- An option whose network id the mapper can handle without failing:
either not Stacks-prefixed (the selection predicate skips it) or a
recognized Stacks chain id. -/
def recognizedOption (opt : PaymentRequirementsV2) : Bool :=
  !jsStartsWith opt.network "stacks:" ||
    (match networkFromCAIP2 opt.network with
     | .ok _ => true
     | .error _ => false)

/-- The V1 gate outcome invokes the wrapped handler with `v` attached
and the named response header set. -/
def GateOutcomeV1.handlerWith (g : GateOutcomeV1) (v : VerifiedPayment) (hdr : String) : Prop :=
  match g with
  | .handler a headers => a = v ∧ headers.lookup hdr ≠ none
  | .respond _ _ => False

/-- The V2 gate outcome invokes the wrapped handler with `r` attached
and the named response header set. -/
def GateOutcome.handlerWith (g : GateOutcome) (r : SettlementResponseV2) (hdr : String) : Prop :=
  match g with
  | .handler a headers => a = r ∧ headers.lookup hdr ≠ none
  | .respond _ _ _ => False

/-! ## Theorems -/

/-- Looking up the upserted key finds the fresh record. -/
theorem lookup_upsert_self (st : List (String × (Nat × Int))) (k : String) (v : Nat × Int) :
    (upsert st k v).lookup k = some v := by
  simp [upsert, List.lookup]

/-- Filtering out one key leaves the lookup of any other key alone. -/
theorem lookup_filter_ne (st : List (String × (Nat × Int))) (k k' : String) (h : k' ≠ k) :
    (st.filter (fun kv => kv.1 ≠ k)).lookup k' = st.lookup k' := by
  induction st with
  | nil => rfl
  | cons a t ih =>
    obtain ⟨ak, av⟩ := a
    simp only [decide_not] at ih ⊢
    by_cases hak : ak = k
    · have h1 : (k' == ak) = false := by
        simp [hak, h]
      have h1' : (k' == k) = false := by
        simp [h]
      simp [List.filter_cons, hak, List.lookup, h1, h1', ih]
    · have h2 : (decide (ak = k)) = false := by
        simp [hak]
      simp only [List.filter_cons, h2, Bool.not_false, if_true]
      simp [List.lookup, ih]

/-- Upserting one key leaves the lookup of any other key alone. -/
theorem lookup_upsert_ne (st : List (String × (Nat × Int))) (k k' : String) (v : Nat × Int)
    (h : k' ≠ k) : (upsert st k v).lookup k' = st.lookup k' := by
  have h1 : (k' == k) = false := by
    simp [h]
  simp only [upsert, List.lookup, h1]
  exact lookup_filter_ne st k k' h

/-- C2: `X402PaymentVerifier.settle` never throws (it is a total
function into `SettlementResponseV2`) and never returns success on a
transport-level failure: every non-`ok` transport outcome yields
`success = false`, an `errorReason` taken from the error body when it
carries a truthy one and `unexpected_settle_error` otherwise,
`transaction` defaulted to `""` and `network` defaulted to the
requirement's network. -/
theorem C2_settle_normalizes_transport_failure :
    ∀ (body : SettleErrorBody) (reqs : PaymentRequirementsV2),
      (∀ t : SettleTransport, (∀ d, t ≠ .ok d) →
        (X402PaymentVerifier.settle t reqs).success = false) ∧
      X402PaymentVerifier.settle .netError reqs =
        { success := false, errorReason := some errUnexpectedSettle, payer := none,
          transaction := "", network := reqs.network } ∧
      X402PaymentVerifier.settle (.httpError none) reqs =
        { success := false, errorReason := some errUnexpectedSettle, payer := none,
          transaction := "", network := reqs.network } ∧
      X402PaymentVerifier.settle (.httpError (some body)) reqs =
        { success := false
          errorReason := some (orFalsy body.errorReason errUnexpectedSettle)
          payer := body.payer
          transaction := orFalsy body.transaction ""
          network := orFalsy body.network reqs.network } := by
  intro body reqs
  refine ⟨?_, rfl, rfl, rfl⟩
  intro t ht
  cases t with
  | ok d => exact absurd rfl (ht d)
  | httpError b => cases b <;> rfl
  | netError => rfl

/-- C2 witness: the non-`ok` hypothesis discharged at a concrete
transport failure. -/
theorem C2_settle_normalizes_transport_failure_witness :
    (X402PaymentVerifier.settle .netError
      { scheme := "exact", network := "stacks:2147483648", amount := "100",
        asset := "STX", payTo := "SP1", maxTimeoutSeconds := 300 }).success = false :=
  (C2_settle_normalizes_transport_failure ⟨none, none, none, none⟩
      { scheme := "exact", network := "stacks:2147483648", amount := "100",
        asset := "STX", payTo := "SP1", maxTimeoutSeconds := 300 }).1
    .netError (fun _ h => SettleTransport.noConfusion h)

/-- C9: the legacy memo is `nonce.substring(0, 34)` — a deterministic
34-character prefix.  The inline comment (`// Max 34 bytes for Stacks
memo`) and the spec promise at most 34 *bytes*, but character
truncation exceeds that bound on multi-byte nonces: a nonce of forty
U+00E9 characters yields a 34-character, 68-byte memo. -/
theorem C9_memo_char_truncation_exceeds_byte_bound :
    (∀ nonce : String, (signPaymentMemo nonce).length = min 34 nonce.length) ∧
    signPaymentMemo (String.mk (List.replicate 40 'é')) =
      String.mk (List.replicate 34 'é') ∧
    utf8Len (signPaymentMemo (String.mk (List.replicate 40 'é'))) = 68 := by
  refine ⟨?_, rfl, rfl⟩
  intro nonce
  exact List.length_take 34 nonce.data

/-- C10: the four public header decoders are total (they return an
`Option`, never throwing) and agree pointwise with
`JSON.parse ∘ base64-decode`: absent, empty and undecodable headers
give `none`, and a header whose base64 decoding parses as JSON gives
exactly the parsed value. -/
theorem C10_decoders_total_and_exact :
    (decodePaymentRequired none = none ∧ decodePaymentResponse none = none ∧
     parsePaymentRequiredHeader none = none ∧ parsePaymentResponseHeader none = none) ∧
    (decodePaymentRequired (some "") = none ∧ decodePaymentResponse (some "") = none ∧
     parsePaymentRequiredHeader (some "") = none ∧ parsePaymentResponseHeader (some "") = none) ∧
    (∀ s : String, jsonParse (base64DecodeStr s) = none →
      decodePaymentRequired (some s) = none ∧ decodePaymentResponse (some s) = none ∧
      parsePaymentRequiredHeader (some s) = none ∧ parsePaymentResponseHeader (some s) = none) ∧
    (∀ (s : String) (j : Json), s ≠ "" → jsonParse (base64DecodeStr s) = some j →
      decodePaymentRequired (some s) = some j ∧ decodePaymentResponse (some s) = some j ∧
      parsePaymentRequiredHeader (some s) = some j ∧ parsePaymentResponseHeader (some s) = some j) := by
  refine ⟨⟨rfl, rfl, rfl, rfl⟩, ⟨rfl, rfl, rfl, rfl⟩, ?_, ?_⟩
  · intro s h
    refine ⟨?_, ?_, h, h⟩ <;>
      · by_cases hs : s = "" <;>
          simp [decodePaymentRequired, decodePaymentResponse, hs, h]
  · intro s j hs h
    simp [decodePaymentRequired, decodePaymentResponse, parsePaymentRequiredHeader,
          parsePaymentResponseHeader, hs, h]

/-- C10 witness: the decode hypotheses discharged at a concrete valid
header and a concrete undecodable header. -/
theorem C10_decoders_total_and_exact_witness :
    decodePaymentRequired (some "eyJ4NDAyVmVyc2lvbiI6Mn0=") =
      some (.obj [("x402Version", .num 2)]) ∧
    decodePaymentResponse (some "%%%") = none := by
  have h1 : ("eyJ4NDAyVmVyc2lvbiI6Mn0=" : String) ≠ "" := by decide
  have h2 : jsonParse (base64DecodeStr "eyJ4NDAyVmVyc2lvbiI6Mn0=") =
      some (Json.obj [("x402Version", Json.num 2)]) := rfl
  have h3 : jsonParse (base64DecodeStr "%%%") = none := rfl
  exact ⟨(C10_decoders_total_and_exact.2.2.2 _ _ h1 h2).1,
         (C10_decoders_total_and_exact.2.2.1 _ h3).2.1⟩

/-- C7: `isPaymentRequestExpired` is true exactly when the parsed
expiration date lies strictly before now (an unparseable date is never
expired, matching `NaN` comparison semantics), and the legacy client's
402 step rejects an expired notice with the `'Payment request has
expired'` error before invoking the signer (the outcome is
`throwExpired` for every signer). -/
theorem C7_client_enforces_expiry :
    (∀ (parseDate : String → Option Int) (s : String) (t now : Int),
       parseDate s = some t →
       (isPaymentRequestExpired parseDate s now = true ↔ t < now)) ∧
    (∀ (parseDate : String → Option Int) (s : String) (now : Int),
       parseDate s = none → isPaymentRequestExpired parseDate s now = false) ∧
    (∀ (parseDate : String → Option Int) (now : Int)
       (sign : Json → Except String String) (pr : Json) (t : Int),
       isValidPaymentRequest pr = true →
       parseDate ((getStrField pr "expiresAt").getD "") = some t →
       t < now →
       requestWithPayment402 parseDate now sign pr = .throwExpired) := by
  refine ⟨?_, ?_, ?_⟩
  · intro parseDate s t now h
    simp [isPaymentRequestExpired, h]
  · intro parseDate s now h
    simp [isPaymentRequestExpired, h]
  · intro parseDate now sign pr t hvalid hparse hlt
    simp [requestWithPayment402, hvalid, isPaymentRequestExpired, hparse, hlt]

/-- C7 witness: the expiry hypotheses discharged at a concrete expired
notice. -/
theorem C7_client_enforces_expiry_witness :
    requestWithPayment402 (fun s => if s = "e" then some (100 : Int) else none) 200
      (fun _ => .ok "tx")
      (.obj [("maxAmountRequired", .str "1"), ("resource", .str "/r"),
             ("payTo", .str "a"), ("network", .str "testnet"),
             ("nonce", .str "n"), ("expiresAt", .str "e")]) = .throwExpired :=
  C7_client_enforces_expiry.2.2 _ 200 _ _ 100 rfl rfl (by decide)

/-- C8: rate-limit boundary behaviour with `freeRequests = 2`: from a
state with no record for the key, three sequential requests within one
window are {admitted free, admitted free, gated by the wrapped payment
middleware}; a request from a different (fresh) key is admitted free
regardless of the first key's counter; and once the window has elapsed
(`resetAt < now`) the counter resets, so the next request is admitted
free again with a fresh window. -/
theorem C8_rate_limit_boundary :
    ∀ (W : Int) (s : List (String × (Nat × Int))) (k k' : String) (t1 t2 t3 t4 t5 : Int),
      s.lookup k = none →
      s.lookup k' = none →
      k' ≠ k →
      ¬ (t1 + W < t2) →
      ¬ (t1 + W < t3) →
      t1 + W < t4 →
      rateLimitStep 2 W s k t1 = (upsert s k (1, t1 + W), .admitFree) ∧
      rateLimitStep 2 W (upsert s k (1, t1 + W)) k t2 =
        (upsert (upsert s k (1, t1 + W)) k (2, t1 + W), .admitFree) ∧
      rateLimitStep 2 W (upsert (upsert s k (1, t1 + W)) k (2, t1 + W)) k t3 =
        (upsert (upsert s k (1, t1 + W)) k (2, t1 + W), .gated) ∧
      (rateLimitStep 2 W (upsert (upsert s k (1, t1 + W)) k (2, t1 + W)) k' t5).2 =
        .admitFree ∧
      rateLimitStep 2 W (upsert (upsert s k (1, t1 + W)) k (2, t1 + W)) k t4 =
        (upsert (upsert (upsert s k (1, t1 + W)) k (2, t1 + W)) k (1, t4 + W), .admitFree) := by
  intro W s k k' t1 t2 t3 t4 t5 hk hk' hkk h2 h3 h4
  refine ⟨?_, ?_, ?_, ?_, ?_⟩
  · simp [rateLimitStep, hk]
  · simp [rateLimitStep, lookup_upsert_self, h2]
  · simp [rateLimitStep, lookup_upsert_self, h3]
  · simp [rateLimitStep, lookup_upsert_ne _ _ _ _ hkk, hk']
  · simp [rateLimitStep, lookup_upsert_self, h4]

/-- C8 witness: the boundary hypotheses discharged at concrete keys
and times. -/
theorem C8_rate_limit_boundary_witness :
    rateLimitStep 2 1000 [] "a" 0 = (upsert [] "a" (1, 1000), .admitFree) ∧
    rateLimitStep 2 1000 (upsert [] "a" (1, 1000)) "a" 500 =
      (upsert (upsert [] "a" (1, 1000)) "a" (2, 1000), .admitFree) ∧
    rateLimitStep 2 1000 (upsert (upsert [] "a" (1, 1000)) "a" (2, 1000)) "a" 900 =
      (upsert (upsert [] "a" (1, 1000)) "a" (2, 1000), .gated) ∧
    (rateLimitStep 2 1000 (upsert (upsert [] "a" (1, 1000)) "a" (2, 1000)) "b" 100).2 =
      .admitFree ∧
    rateLimitStep 2 1000 (upsert (upsert [] "a" (1, 1000)) "a" (2, 1000)) "a" 2000 =
      (upsert (upsert (upsert [] "a" (1, 1000)) "a" (2, 1000)) "a" (1, 3000), .admitFree) :=
  C8_rate_limit_boundary 1000 [] "a" "b" 0 500 900 2000 100 rfl rfl (by decide)
    (by decide) (by decide) (by decide)

/-- C3: the payment gate's settlement matrix.  Legacy gate (with a
payment header present and no custom validator): a valid confirmed
settlement attaches the evidence, sets the `X-PAYMENT-RESPONSE` header
and invokes the wrapped handler; a valid but still-pending settlement
yields 402 "Payment not yet confirmed"; an invalid settlement yields
402 with the failure details in the body and never invokes the
handler; a failed transaction yields 402.  V2 gate (with a decodable
version-2 payment header): success attaches the evidence, sets the
`payment-response` header and invokes the handler; failure yields 402
with the failure reason in the body and never invokes the handler. -/
theorem C3_gate_rejection_matrix :
    ∀ (config : X402MiddlewareConfig) (req : HttpReqV1)
      (settleStub verifyStub : String → VerifiedPayment) (v : VerifiedPayment)
      (p nonce expiresAt : String)
      (cfg2 : PaymentMiddlewareConfig) (req2 : HttpReq) (h : String) (payload : Json)
      (r : SettlementResponseV2),
      config.paymentValidator = none →
      req.xPayment = some p →
      p ≠ "" →
      settleStub p = v →
      cfg2.paymentValidator = none →
      req2.paymentSignatureHeader = some h →
      h ≠ "" →
      jsonParse (base64DecodeStr h) = some payload →
      payload.getField "x402Version" = some (.num 2) →
      -- V1 gate: success/confirmed -> handler invoked, evidence attached, header set
      (v.isValid = true → v.status = .success →
        (x402PaymentRequired config req settleStub verifyStub nonce expiresAt).handlerWith
          v "X-PAYMENT-RESPONSE") ∧
      -- V1 gate: success/still-pending -> 402 "not yet confirmed"
      (v.isValid = true → v.status = .pending →
        x402PaymentRequired config req settleStub verifyStub nonce expiresAt =
          .respond 402 (.obj [("error", .str "Payment not yet confirmed"),
            ("details", .str "Please wait for transaction confirmation on the blockchain"),
            ("paymentStatus", .str "pending")])) ∧
      -- V1 gate: invalid settlement -> 402 with the reason, handler never invoked
      (v.isValid = false →
        (∃ body, x402PaymentRequired config req settleStub verifyStub nonce expiresAt =
            .respond 402 body ∧
          body.getField "error" = some (.str "Invalid payment") ∧
          body.getField "paymentStatus" = some (.str v.status.toJs)) ∧
        (∀ a headers, x402PaymentRequired config req settleStub verifyStub nonce expiresAt ≠
            .handler a headers)) ∧
      -- V1 gate: failed transaction -> 402, handler never invoked
      (v.isValid = true → v.status = .failed →
        x402PaymentRequired config req settleStub verifyStub nonce expiresAt =
          .respond 402 (.obj [("error", .str "Payment failed"),
            ("details", .str "Transaction failed on blockchain"),
            ("paymentStatus", .str "failed")])) ∧
      -- V2 gate: successful settlement -> handler invoked, evidence attached, header set
      (r.success = true →
        (paymentMiddleware cfg2 req2 (fun _ _ => r)).handlerWith r "payment-response") ∧
      -- V2 gate: failed settlement -> 402 with the reason, handler never invoked
      (r.success = false →
        (∃ body headers, paymentMiddleware cfg2 req2 (fun _ _ => r) = .respond 402 body headers ∧
          body.getField "error" = some (.str (orFalsy r.errorReason errUnexpectedSettle))) ∧
        (∀ a headers, paymentMiddleware cfg2 req2 (fun _ _ => r) ≠ .handler a headers)) := by
  intro config req settleStub verifyStub v p nonce expiresAt cfg2 req2 h payload r
  intro hval hxp hp hstub hval2 hreq2 hh hdec hver
  refine ⟨?_, ?_, ?_, ?_, ?_, ?_⟩
  · intro hvalid hstatus
    simp [x402PaymentRequired, hxp, truthyStr, hp, hstub, hvalid, hstatus, hval,
          GateOutcomeV1.handlerWith, List.lookup]
  · intro hvalid hstatus
    simp [x402PaymentRequired, hxp, truthyStr, hp, hstub, hvalid, hstatus]
  · intro hvalid
    constructor
    · refine ⟨.obj (("error", .str "Invalid payment") ::
          ((match v.validationError with
            | some d => [("details", Json.str d)]
            | none => []) ++ [("paymentStatus", .str v.status.toJs)])),
        by cases hve : v.validationError <;>
             simp [x402PaymentRequired, hxp, truthyStr, hp, hstub, hvalid, hve], ?_, ?_⟩
      · cases hve : v.validationError <;> simp [Json.getField, List.lookup]
      · cases hve : v.validationError <;> simp [Json.getField, List.lookup]
    · intro a headers hcontra
      simp [x402PaymentRequired, hxp, truthyStr, hp, hstub, hvalid] at hcontra
  · intro hvalid hstatus
    simp [x402PaymentRequired, hxp, truthyStr, hp, hstub, hvalid, hstatus]
  · intro hsucc
    simp [paymentMiddleware, hreq2, hh, hdec, hver, hsucc, hval2,
          GateOutcome.handlerWith, List.lookup]
  · intro hsucc
    constructor
    · refine ⟨.obj (("error", .str (orFalsy r.errorReason errUnexpectedSettle)) ::
          ((match r.payer with
            | some q => [("payer", Json.str q)]
            | none => []) ++ [("transaction", .str r.transaction)])),
        [("payment-required", jsonToB64 (createPaymentRequiredResponse req2 cfg2))],
        by cases hpy : r.payer <;>
             simp [paymentMiddleware, hreq2, hh, hdec, hver, hsucc, hpy], ?_⟩
      · cases hpy : r.payer <;> simp [Json.getField, List.lookup]
    · intro a headers hcontra
      simp [paymentMiddleware, hreq2, hh, hdec, hver, hsucc] at hcontra

theorem C3_gate_rejection_matrix_witness :
    (x402PaymentRequired
        { address := "SP1", amount := "100", network := .testnet, resource := none,
          tokenType := none, tokenContract := none, expirationSeconds := none,
          paymentValidator := none }
        { xPayment := some "blob", xPaymentTxid := none, xPaymentTokenType := none,
          path := "/r", method := "GET" }
        (fun _ => { isValid := true, status := .success, txId := some "t",
                    blockHeight := some 5, validationError := none })
        (fun _ => { isValid := true, status := .success, txId := some "t",
                    blockHeight := some 5, validationError := none })
        "n" "e").handlerWith
      { isValid := true, status := .success, txId := some "t",
        blockHeight := some 5, validationError := none } "X-PAYMENT-RESPONSE" ∧
    (paymentMiddleware
        { scheme := none, network := "stacks:2147483648", amount := "100", asset := "STX",
          payTo := "SP1", maxTimeoutSeconds := none, description := none, mimeType := none,
          paymentValidator := none }
        { paymentSignatureHeader := some "eyJ4NDAyVmVyc2lvbiI6Mn0=", protocol := "http",
          host := "h", originalUrl := "/r" }
        (fun _ _ => { success := true, errorReason := none, payer := none,
                      transaction := "0x", network := "stacks:2147483648" })).handlerWith
      { success := true, errorReason := none, payer := none,
        transaction := "0x", network := "stacks:2147483648" } "payment-response" := by
  have hmat := C3_gate_rejection_matrix
    { address := "SP1", amount := "100", network := .testnet, resource := none,
      tokenType := none, tokenContract := none, expirationSeconds := none,
      paymentValidator := none }
    { xPayment := some "blob", xPaymentTxid := none, xPaymentTokenType := none,
      path := "/r", method := "GET" }
    (fun _ => { isValid := true, status := .success, txId := some "t",
                blockHeight := some 5, validationError := none })
    (fun _ => { isValid := true, status := .success, txId := some "t",
                blockHeight := some 5, validationError := none })
    { isValid := true, status := .success, txId := some "t",
      blockHeight := some 5, validationError := none }
    "blob" "n" "e"
    { scheme := none, network := "stacks:2147483648", amount := "100", asset := "STX",
      payTo := "SP1", maxTimeoutSeconds := none, description := none, mimeType := none,
      paymentValidator := none }
    { paymentSignatureHeader := some "eyJ4NDAyVmVyc2lvbiI6Mn0=", protocol := "http",
      host := "h", originalUrl := "/r" }
    "eyJ4NDAyVmVyc2lvbiI6Mn0="
    (.obj [("x402Version", .num 2)])
    { success := true, errorReason := none, payer := none,
      transaction := "0x", network := "stacks:2147483648" }
    rfl rfl (by decide) rfl rfl rfl (by decide) rfl rfl
  exact ⟨hmat.1 rfl rfl, hmat.2.2.2.2.1 rfl⟩

/-- A notice value that converts is an object, hence truthy. -/
theorem toNotice_truthy (j : Json) (n : NoticeT) (h : toNotice j = some n) :
    j.truthy = true := by
  cases j <;> simp [toNotice, Json.getField, Json.truthy] at h ⊢

/-- The network mapper's failure always names its input. -/
theorem networkFromCAIP2_error (s : String) (e : CaipErr)
    (h : networkFromCAIP2 s = .error e) : e = .unsupportedNetwork s := by
  unfold networkFromCAIP2 at h
  split at h
  · exact absurd h (by simp)
  · split at h
    · exact absurd h (by simp)
    · injection h with h1
      exact h1.symm

/-- C1: the 402 interceptor attempts payment at most once per request
object: the first 402 for a fresh request object signs and issues
exactly one retry while recording the object's identity; every
subsequent 402 for the same object is rejected with the
`'Payment already attempted for this request'` error without the
signer being consulted (the outcome is the same for every signer); and
the guard keys on object identity — a fresh request object, whatever
its URL, is never rejected as already-attempted. -/
theorem C1_payment_attempted_at_most_once :
    ∀ (sign : PaymentRequirementsV2 → StacksAccount → Except String String)
      (attempted : List Nat) (err : ErrorInfo) (account : StacksAccount)
      (notice : NoticeT) (sel : PaymentRequirementsV2) (tx : String),
      err.status = some 402 →
      err.config.id ∉ attempted →
      toNotice (noticeJson err) = some notice →
      selectPaymentOption notice.accepts account = .ok (some sel) →
      sign sel account = .ok tx →
      -- first 402 for this request object: sign once and retry exactly once,
      -- marking the object as attempted
      handle402 sign attempted err account =
        (err.config.id :: attempted,
         .retry { err.config with
                    headers := setHeader err.config.headers "payment-signature"
                      (encodePaymentPayload (buildPaymentPayload notice.resource sel tx)) }) ∧
      -- any later 402 for the same request object is rejected with the
      -- payment-already-attempted error, whatever the signer does
      (∀ (sign2 : PaymentRequirementsV2 → StacksAccount → Except String String)
         (err2 : ErrorInfo) (account2 : StacksAccount),
         err2.status = some 402 → err2.config.id = err.config.id →
         handle402 sign2 (err.config.id :: attempted) err2 account2 =
           (err.config.id :: attempted, .reject .alreadyAttempted)) ∧
      -- tracking is by request-object identity, not URL: a fresh request
      -- object (any URL) is never rejected as already-attempted
      (∀ (err3 : ErrorInfo), err3.status = some 402 →
         err3.config.id ∉ err.config.id :: attempted →
         (handle402 sign (err.config.id :: attempted) err3 account).2 ≠
           .reject .alreadyAttempted) := by
  intro sign attempted err account notice sel tx hs hmem hnotice hsel hsign
  refine ⟨?_, ?_, ?_⟩
  · have htr : (noticeJson err).truthy = true := toNotice_truthy _ _ hnotice
    simp [handle402, hs, hmem, htr, hnotice, hsel, hsign]
  · intro sign2 err2 account2 h2s h2id
    simp [handle402, h2s, h2id]
  · intro err3 h3s h3mem hcontra
    simp only [handle402, h3s, h3mem] at hcontra
    rw [if_neg (by simp)] at hcontra
    rw [if_neg (by simp [h3mem])] at hcontra
    split at hcontra
    · simp at hcontra
    · split at hcontra
      · simp at hcontra
      · split at hcontra
        · simp at hcontra
        · simp at hcontra
        · split at hcontra
          · simp at hcontra
          · simp at hcontra

/-- C1 witness: the at-most-once hypotheses discharged at a concrete
402 exchange; the same request object is rejected on its second 402. -/
theorem C1_payment_attempted_at_most_once_witness :
    handle402 (fun _ _ => .ok "aa") []
      { config := ⟨7, "/u", []⟩, status := some 402, paymentRequiredHeader := none,
        body := .obj [("x402Version", .num 2), ("resource", .obj [("url", .str "u")]),
          ("accepts", .arr [.obj [("scheme", .str "exact"),
            ("network", .str "stacks:2147483648"), ("amount", .str "100"),
            ("asset", .str "STX"), ("payTo", .str "SP1"),
            ("maxTimeoutSeconds", .num 300)]])] }
      ⟨"ST1", "k", .testnet⟩ =
      ([7],
       .retry ⟨7, "/u", setHeader [] "payment-signature"
         (encodePaymentPayload (buildPaymentPayload (some (.obj [("url", .str "u")]))
           ⟨"exact", "stacks:2147483648", "100", "STX", "SP1", 300⟩ "aa"))⟩) ∧
    handle402 (fun _ _ => .ok "aa") [7]
      { config := ⟨7, "/u", []⟩, status := some 402, paymentRequiredHeader := none,
        body := .obj [("x402Version", .num 2), ("resource", .obj [("url", .str "u")]),
          ("accepts", .arr [.obj [("scheme", .str "exact"),
            ("network", .str "stacks:2147483648"), ("amount", .str "100"),
            ("asset", .str "STX"), ("payTo", .str "SP1"),
            ("maxTimeoutSeconds", .num 300)]])] }
      ⟨"ST1", "k", .testnet⟩ = ([7], .reject .alreadyAttempted) := by
  have h := C1_payment_attempted_at_most_once (fun _ _ => .ok "aa") []
    { config := ⟨7, "/u", []⟩, status := some 402, paymentRequiredHeader := none,
      body := .obj [("x402Version", .num 2), ("resource", .obj [("url", .str "u")]),
        ("accepts", .arr [.obj [("scheme", .str "exact"),
          ("network", .str "stacks:2147483648"), ("amount", .str "100"),
          ("asset", .str "STX"), ("payTo", .str "SP1"),
          ("maxTimeoutSeconds", .num 300)]])] }
    ⟨"ST1", "k", .testnet⟩
    ⟨some (.obj [("url", .str "u")]),
     [⟨"exact", "stacks:2147483648", "100", "STX", "SP1", 300⟩]⟩
    ⟨"exact", "stacks:2147483648", "100", "STX", "SP1", 300⟩ "aa"
    rfl (by decide) (by rfl) (by rfl) rfl
  exact ⟨h.1, h.2.1 (fun _ _ => .ok "aa")
    { config := ⟨7, "/u", []⟩, status := some 402, paymentRequiredHeader := none,
      body := .obj [("x402Version", .num 2), ("resource", .obj [("url", .str "u")]),
        ("accepts", .arr [.obj [("scheme", .str "exact"),
          ("network", .str "stacks:2147483648"), ("amount", .str "100"),
          ("asset", .str "STX"), ("payTo", .str "SP1"),
          ("maxTimeoutSeconds", .num 300)]])] }
    ⟨"ST1", "k", .testnet⟩ rfl rfl⟩

/-- C4: asset dispatch in `signPaymentV2`: a native-asset (`"STX"`)
requirement never reaches the contract-call construction path; a
fungible-token requirement never degenerates into a native STX
transfer; and (for well-formed amount and network) signing fails with
the missing-contract-binding error exactly when neither the asset
identifier nor the built-in per-(asset-kind, network) defaults table
yields a contract — an `.error` outcome constructs no transaction, so
no network call is made. -/
theorem C4_asset_dispatch :
    (∀ (req : PaymentRequirementsV2) (account : StacksAccount) (memoSeed : String)
       (o : SignOutcome),
       req.asset = "STX" →
       signPaymentV2 req account memoSeed = .ok o → o.isContractCall = false) ∧
    (∀ (req : PaymentRequirementsV2) (account : StacksAccount) (memoSeed : String)
       (tt : TokenType) (tc : Option TokenContract) (o : SignOutcome),
       assetFromV2 req.asset = .ok (tt, tc) → tt ≠ .STX →
       signPaymentV2 req account memoSeed = .ok o → o.isStxTransfer = false) ∧
    (∀ (req : PaymentRequirementsV2) (account : StacksAccount) (memoSeed : String)
       (amount : Int) (tt : TokenType) (tc : Option TokenContract) (n : NetworkType),
       parseBigInt req.amount = some amount →
       assetFromV2 req.asset = .ok (tt, tc) → tt ≠ .STX →
       networkFromCAIP2 req.network = .ok n →
       (signPaymentV2 req account memoSeed = .error (.missingBinding tt) ↔
         getTokenContractForAsset req.asset n = .ok none)) := by
  refine ⟨?_, ?_, ?_⟩
  · intro req account memoSeed o ha heq
    cases hpb : parseBigInt req.amount with
    | none => simp [signPaymentV2, hpb] at heq
    | some amount =>
      cases hn : networkFromCAIP2 req.network with
      | error e =>
        cases e
        simp [signPaymentV2, hpb, ha, assetFromV2, hn] at heq
      | ok v1 =>
        simp [signPaymentV2, hpb, ha, assetFromV2, hn] at heq
        simp [← heq, SignOutcome.isContractCall]
  · intro req account memoSeed tt tc o hasset htt heq
    cases hpb : parseBigInt req.amount with
    | none => simp [signPaymentV2, hpb] at heq
    | some amount =>
      cases hn : networkFromCAIP2 req.network with
      | error e =>
        cases e
        simp [signPaymentV2, hpb, hasset, hn] at heq
      | ok v1 =>
        cases tt with
        | STX => exact absurd rfl htt
        | sBTC =>
          cases hg : getTokenContractForAsset req.asset v1 with
          | error e =>
            cases e
            simp [signPaymentV2, hpb, hasset, hn, hg] at heq
          | ok oc =>
            cases oc with
            | none => simp [signPaymentV2, hpb, hasset, hn, hg] at heq
            | some c =>
              simp [signPaymentV2, hpb, hasset, hn, hg] at heq
              simp [← heq, SignOutcome.isStxTransfer]
        | USDCx =>
          cases hg : getTokenContractForAsset req.asset v1 with
          | error e =>
            cases e
            simp [signPaymentV2, hpb, hasset, hn, hg] at heq
          | ok oc =>
            cases oc with
            | none => simp [signPaymentV2, hpb, hasset, hn, hg] at heq
            | some c =>
              simp [signPaymentV2, hpb, hasset, hn, hg] at heq
              simp [← heq, SignOutcome.isStxTransfer]
  · intro req account memoSeed amount tt tc n hpb hasset htt hn
    cases tt with
    | STX => exact absurd rfl htt
    | sBTC =>
      cases hg : getTokenContractForAsset req.asset n with
      | error e =>
        cases e with
        | malformedAssetId a =>
          cases tc <;> simp [getTokenContractForAsset, hasset] at hg
      | ok oc =>
        cases oc with
        | none => simp [signPaymentV2, hpb, hasset, hn, hg]
        | some c => simp [signPaymentV2, hpb, hasset, hn, hg]
    | USDCx =>
      cases hg : getTokenContractForAsset req.asset n with
      | error e =>
        cases e with
        | malformedAssetId a =>
          cases tc <;> simp [getTokenContractForAsset, hasset] at hg
      | ok oc =>
        cases oc with
        | none => simp [signPaymentV2, hpb, hasset, hn, hg]
        | some c => simp [signPaymentV2, hpb, hasset, hn, hg]

/-- C4 witness: dispatch hypotheses discharged at a concrete native
and a concrete fungible requirement. -/
theorem C4_asset_dispatch_witness :
    (signPaymentV2 ⟨"exact", "stacks:2147483648", "100", "STX", "SP2", 300⟩
        ⟨"ST1", "k", .testnet⟩ "m" = .ok (.stxTransfer "SP2" 100 "x402:m") ∧
      SignOutcome.isContractCall (.stxTransfer "SP2" 100 "x402:m") = false) ∧
    (signPaymentV2 ⟨"exact", "stacks:2147483648", "100", "sBTC", "SP2", 300⟩
        ⟨"ST1", "k", .testnet⟩ "m" = .error (.missingBinding .sBTC) ↔
      getTokenContractForAsset "sBTC" .testnet = .ok none) :=
  ⟨⟨by rfl, C4_asset_dispatch.1 ⟨"exact", "stacks:2147483648", "100", "STX", "SP2", 300⟩
      ⟨"ST1", "k", .testnet⟩ "m" (.stxTransfer "SP2" 100 "x402:m") (by rfl) (by rfl)⟩,
   C4_asset_dispatch.2.2 ⟨"exact", "stacks:2147483648", "100", "sBTC", "SP2", 300⟩
      ⟨"ST1", "k", .testnet⟩ "m" 100 .sBTC none .testnet (by rfl) (by rfl) (by decide) (by rfl)⟩

/-- C5 (amended): option selection returns the unique compatible
option regardless of surrounding incompatible entries, and fails with
the no-compatible-option error naming the available networks when no
entry is compatible — provided every stacks-prefixed entry carries a
recognized chain id; a selected option always matches the account's
network exactly; and a stacks-prefixed entry with an unrecognized
chain id makes selection fail with the network mapper's
`UnsupportedNetwork` error instead. -/
theorem C5_option_selection :
    -- (a) a compatible option is returned no matter how many incompatible,
    --     recognized options precede it (and anything may follow it)
    (∀ (account : StacksAccount) (pre post : List PaymentRequirementsV2)
       (opt : PaymentRequirementsV2),
       (∀ o ∈ pre, isCompatibleOption o account = false ∧ recognizedOption o = true) →
       isCompatibleOption opt account = true →
       selectPaymentOption (pre ++ opt :: post) account = .ok (some opt)) ∧
    -- (b) zero compatible options among recognized entries: no option selected
    (∀ (account : StacksAccount) (accepts : List PaymentRequirementsV2),
       (∀ o ∈ accepts, isCompatibleOption o account = false ∧ recognizedOption o = true) →
       selectPaymentOption accepts account = .ok none) ∧
    -- (c) a selected option is always exactly network-compatible
    (∀ (account : StacksAccount) (accepts : List PaymentRequirementsV2)
       (opt : PaymentRequirementsV2),
       selectPaymentOption accepts account = .ok (some opt) →
       isCompatibleOption opt account = true) ∧
    -- (d) the negotiator turns an empty selection into the terminal
    --     no-compatible-option rejection naming the available networks
    (∀ (sign : PaymentRequirementsV2 → StacksAccount → Except String String)
       (attempted : List Nat) (err : ErrorInfo) (account : StacksAccount) (notice : NoticeT),
       err.status = some 402 →
       err.config.id ∉ attempted →
       toNotice (noticeJson err) = some notice →
       (∀ o ∈ notice.accepts, isCompatibleOption o account = false ∧ recognizedOption o = true) →
       handle402 sign attempted err account =
         (err.config.id :: attempted,
          .reject (.noCompatibleOption (notice.accepts.map (·.network))))) ∧
    -- (e) an unrecognized stacks-prefixed id makes selection fail with
    --     UnsupportedNetwork instead
    (∀ (account : StacksAccount) (pre post : List PaymentRequirementsV2)
       (opt : PaymentRequirementsV2),
       (∀ o ∈ pre, isCompatibleOption o account = false ∧ recognizedOption o = true) →
       jsStartsWith opt.network "stacks:" = true →
       recognizedOption opt = false →
       selectPaymentOption (pre ++ opt :: post) account =
         .error (.unsupportedNetwork opt.network)) := by
  have skipOne : ∀ (account : StacksAccount) (o : PaymentRequirementsV2)
      (rest : List PaymentRequirementsV2),
      isCompatibleOption o account = false → recognizedOption o = true →
      selectPaymentOption (o :: rest) account = selectPaymentOption rest account := by
    intro account o rest hinc hrec
    by_cases hsw : jsStartsWith o.network "stacks:"
    · cases hn : networkFromCAIP2 o.network with
      | error e =>
        exfalso
        simp [recognizedOption, hsw, hn] at hrec
      | ok v1 =>
        have hne : v1 ≠ account.network := by
          intro hv
          simp [isCompatibleOption, hsw, hn, hv] at hinc
        simp [selectPaymentOption, hsw, hn, hne]
    · simp [selectPaymentOption, hsw]
  have partB : ∀ (account : StacksAccount) (accepts : List PaymentRequirementsV2),
      (∀ o ∈ accepts, isCompatibleOption o account = false ∧ recognizedOption o = true) →
      selectPaymentOption accepts account = .ok none := by
    intro account accepts h
    induction accepts with
    | nil => rfl
    | cons o rest ih =>
      rw [skipOne account o rest (h o (by simp)).1 (h o (by simp)).2]
      exact ih (fun x hx => h x (by simp [hx]))
  have partA : ∀ (account : StacksAccount) (pre post : List PaymentRequirementsV2)
      (opt : PaymentRequirementsV2),
      (∀ o ∈ pre, isCompatibleOption o account = false ∧ recognizedOption o = true) →
      isCompatibleOption opt account = true →
      selectPaymentOption (pre ++ opt :: post) account = .ok (some opt) := by
    intro account pre post opt hpre hcomp
    induction pre with
    | nil =>
      have h' := hcomp
      simp only [isCompatibleOption, Bool.and_eq_true] at h'
      have hsw : jsStartsWith opt.network "stacks:" = true := h'.1
      cases hn : networkFromCAIP2 opt.network with
      | error e =>
        exfalso
        rw [hn] at h'
        simp at h'
      | ok v1 =>
        have hv : v1 = account.network := by
          rw [hn] at h'
          simpa using h'.2
        simp [selectPaymentOption, hsw, hn, hv]
    | cons o rest ih =>
      rw [List.cons_append,
        skipOne account o (rest ++ opt :: post) (hpre o (by simp)).1 (hpre o (by simp)).2]
      exact ih (fun x hx => hpre x (by simp [hx]))
  refine ⟨partA, partB, ?_, ?_, ?_⟩
  · intro account accepts opt h
    induction accepts with
    | nil => exact absurd h (by simp [selectPaymentOption])
    | cons o rest ih =>
      rw [show selectPaymentOption (o :: rest) account =
            (if jsStartsWith o.network "stacks:" then
              match networkFromCAIP2 o.network with
              | .error e => .error e
              | .ok v1Network =>
                  if v1Network = account.network then .ok (some o)
                  else selectPaymentOption rest account
            else selectPaymentOption rest account) from rfl] at h
      by_cases hsw : jsStartsWith o.network "stacks:"
      · rw [if_pos hsw] at h
        cases hn : networkFromCAIP2 o.network with
        | error e =>
          rw [hn] at h
          exact absurd h (by simp)
        | ok v1 =>
          rw [hn] at h
          by_cases hv : v1 = account.network
          · simp only [hv, if_pos rfl] at h
            injection h with h1
            injection h1 with h2
            subst h2
            simp [isCompatibleOption, hsw, hn, hv]
          · simp only [if_neg hv] at h
            exact ih h
      · rw [if_neg hsw] at h
        exact ih h
  · intro sign attempted err account notice hs hmem hnotice hopts
    have htr : (noticeJson err).truthy = true := toNotice_truthy _ _ hnotice
    have hsel := partB account notice.accepts hopts
    simp [handle402, hs, hmem, htr, hnotice, hsel]
  · intro account pre post opt hpre hsw hunrec
    induction pre with
    | nil =>
      cases hn : networkFromCAIP2 opt.network with
      | error e =>
        rw [networkFromCAIP2_error _ _ hn] at hn
        simp [selectPaymentOption, hsw, hn]
      | ok v1 =>
        exfalso
        simp [recognizedOption, hsw, hn] at hunrec
    | cons o rest ih =>
      rw [List.cons_append,
        skipOne account o (rest ++ opt :: post) (hpre o (by simp)).1 (hpre o (by simp)).2]
      exact ih (fun x hx => hpre x (by simp [hx]))

/-- C5 witness: the selection hypotheses discharged at concrete
accepts lists. -/
theorem C5_option_selection_witness :
    selectPaymentOption
        [⟨"exact", "eip155:1", "1", "STX", "SP1", 300⟩,
         ⟨"exact", "stacks:2147483648", "1", "STX", "SP1", 300⟩]
        ⟨"ST1", "k", .testnet⟩ =
      .ok (some ⟨"exact", "stacks:2147483648", "1", "STX", "SP1", 300⟩) ∧
    selectPaymentOption [⟨"exact", "eip155:1", "1", "STX", "SP1", 300⟩]
        ⟨"ST1", "k", .testnet⟩ = .ok none :=
  ⟨C5_option_selection.1 ⟨"ST1", "k", .testnet⟩
      [⟨"exact", "eip155:1", "1", "STX", "SP1", 300⟩] []
      ⟨"exact", "stacks:2147483648", "1", "STX", "SP1", 300⟩
      (by
        intro o ho
        simp at ho
        subst ho
        exact ⟨by decide, by decide⟩)
      (by decide),
   C5_option_selection.2.1 ⟨"ST1", "k", .testnet⟩
      [⟨"exact", "eip155:1", "1", "STX", "SP1", 300⟩]
      (by
        intro o ho
        simp at ho
        subst ho
        exact ⟨by decide, by decide⟩)⟩

/-- C5 counterexample: with the spec-modelled network mapper, an
accepts list whose only entry is on `stacks:999` (zero compatible
options) makes the negotiator fail with `UnsupportedNetwork` — an
unrelated error — rather than with the no-compatible-option
rejection the claim promises. -/
theorem C5_claim_counterexample :
    selectPaymentOption [⟨"exact", "stacks:999", "1", "STX", "SP1", 300⟩]
        ⟨"ST1", "k", .testnet⟩ = .error (.unsupportedNetwork "stacks:999") ∧
    (handle402 (fun _ _ => .ok "tx") []
        { config := ⟨1, "/u", []⟩, status := some 402, paymentRequiredHeader := none,
          body := .obj [("x402Version", .num 2), ("resource", .obj []),
            ("accepts", .arr [.obj [("scheme", .str "exact"), ("network", .str "stacks:999"),
              ("amount", .str "1"), ("asset", .str "STX"), ("payTo", .str "SP1"),
              ("maxTimeoutSeconds", .num 300)]])] }
        ⟨"ST1", "k", .testnet⟩).2 = .throwJs (.unsupportedNetwork "stacks:999") ∧
    (handle402 (fun _ _ => .ok "tx") []
        { config := ⟨1, "/u", []⟩, status := some 402, paymentRequiredHeader := none,
          body := .obj [("x402Version", .num 2), ("resource", .obj []),
            ("accepts", .arr [.obj [("scheme", .str "exact"), ("network", .str "stacks:999"),
              ("amount", .str "1"), ("asset", .str "STX"), ("payTo", .str "SP1"),
              ("maxTimeoutSeconds", .num 300)]])] }
        ⟨"ST1", "k", .testnet⟩).2 ≠ .reject (.noCompatibleOption ["stacks:999"]) := by
  refine ⟨by rfl, by rfl, by decide⟩

/-- C6: a request carrying a non-empty `payment-signature` header whose
value does not decode as base64-encoded JSON gets HTTP 400 with an
`invalid_payload` body — not 402 — and the facilitator is never
consulted (the gate's outcome is independent of the settle function);
a request with no payment header gets the 402 notice.  (An *empty*
header value is treated as an absent header: see the counterexample.) -/
theorem C6_nonempty_decode_failure_gives_400 :
    (∀ (cfg : PaymentMiddlewareConfig) (req : HttpReq)
       (settle settle2 : Json → PaymentRequirementsV2 → SettlementResponseV2) (h : String),
       req.paymentSignatureHeader = some h → h ≠ "" →
       jsonParse (base64DecodeStr h) = none →
       paymentMiddleware cfg req settle =
         .respond 400 (.obj [("error", .str errInvalidPayload),
           ("message", .str "Invalid payment-signature header: failed to decode")]) [] ∧
       paymentMiddleware cfg req settle = paymentMiddleware cfg req settle2) ∧
    (∀ (cfg : PaymentMiddlewareConfig) (req : HttpReq)
       (settle : Json → PaymentRequirementsV2 → SettlementResponseV2),
       req.paymentSignatureHeader = none →
       paymentMiddleware cfg req settle =
         .respond 402 (createPaymentRequiredResponse req cfg)
           [("payment-required", jsonToB64 (createPaymentRequiredResponse req cfg))]) := by
  constructor
  · intro cfg req settle settle2 h hreq hh hdec
    constructor
    · simp [paymentMiddleware, hreq, hh, hdec]
    · simp [paymentMiddleware, hreq, hh, hdec]
  · intro cfg req settle hreq
    simp [paymentMiddleware, hreq]

/-- C6 witness: the decode-failure hypotheses discharged at a concrete
undecodable header. -/
theorem C6_nonempty_decode_failure_gives_400_witness :
    paymentMiddleware
      { scheme := none, network := "stacks:2147483648", amount := "100", asset := "STX",
        payTo := "SP1", maxTimeoutSeconds := none, description := none, mimeType := none,
        paymentValidator := none }
      { paymentSignatureHeader := some "%%%", protocol := "http", host := "h",
        originalUrl := "/r" }
      (fun _ _ => { success := true, errorReason := none, payer := none,
                    transaction := "", network := "stacks:2147483648" }) =
      .respond 400 (.obj [("error", .str errInvalidPayload),
        ("message", .str "Invalid payment-signature header: failed to decode")]) [] :=
  (C6_nonempty_decode_failure_gives_400.1
    { scheme := none, network := "stacks:2147483648", amount := "100", asset := "STX",
      payTo := "SP1", maxTimeoutSeconds := none, description := none, mimeType := none,
      paymentValidator := none }
    { paymentSignatureHeader := some "%%%", protocol := "http", host := "h",
      originalUrl := "/r" }
    (fun _ _ => { success := true, errorReason := none, payer := none,
                  transaction := "", network := "stacks:2147483648" })
    (fun _ _ => { success := false, errorReason := none, payer := none,
                  transaction := "", network := "stacks:2147483648" })
    "%%%" rfl (by decide) rfl).1

/-- C6 counterexample: a request carrying the `payment-signature`
header with the empty-string value — a value that does not decode as
base64-encoded JSON — is answered with the 402 notice, not with the
400 `invalid_payload` response the claim requires. -/
theorem C6_counterexample_empty_header_value :
    paymentMiddleware
      { scheme := none, network := "stacks:2147483648", amount := "100", asset := "STX",
        payTo := "SP1", maxTimeoutSeconds := none, description := none, mimeType := none,
        paymentValidator := none }
      { paymentSignatureHeader := some "", protocol := "http", host := "h",
        originalUrl := "/r" }
      (fun _ _ => { success := true, errorReason := none, payer := none,
                    transaction := "", network := "stacks:2147483648" }) =
      .respond 402
        (createPaymentRequiredResponse
          { paymentSignatureHeader := some "", protocol := "http", host := "h",
            originalUrl := "/r" }
          { scheme := none, network := "stacks:2147483648", amount := "100", asset := "STX",
            payTo := "SP1", maxTimeoutSeconds := none, description := none, mimeType := none,
            paymentValidator := none })
        [("payment-required", jsonToB64 (createPaymentRequiredResponse
          { paymentSignatureHeader := some "", protocol := "http", host := "h",
            originalUrl := "/r" }
          { scheme := none, network := "stacks:2147483648", amount := "100", asset := "STX",
            payTo := "SP1", maxTimeoutSeconds := none, description := none, mimeType := none,
            paymentValidator := none }))] ∧
    paymentMiddleware
      { scheme := none, network := "stacks:2147483648", amount := "100", asset := "STX",
        payTo := "SP1", maxTimeoutSeconds := none, description := none, mimeType := none,
        paymentValidator := none }
      { paymentSignatureHeader := some "", protocol := "http", host := "h",
        originalUrl := "/r" }
      (fun _ _ => { success := true, errorReason := none, payer := none,
                    transaction := "", network := "stacks:2147483648" }) ≠
      .respond 400 (.obj [("error", .str errInvalidPayload),
        ("message", .str "Invalid payment-signature header: failed to decode")]) [] := by
  constructor
  · rfl
  · intro hcontra
    injection hcontra with h1 h2 h3
    exact absurd h1 (by decide)

end X402
